import Mathlib

/-!
Shallow embedding of the task-dependency module of the clickup-mcp-server
repository (src/services/clickup/task/task-dependencies.ts), together with
theorems settling the specification claims about it.

The remote ClickUp store and the base-class HTTP client are external
collaborators; they are modelled as an oracle (`Env`) answering the remote
calls the module makes.  Remote WRITE requests (POST / DELETE) issued by an
operation are returned explicitly as a trace, so that zero-side-effect
claims can be stated.  Machine state that the TypeScript code reads
implicitly (the wall clock used by `new Date().getTime()`, the configured
`teamId`) is part of `Env`.
-/

/-- Status sub-record of a ClickUp task (`task.status.status` in the source). -/
structure TaskStatus where
  status : String
  deriving DecidableEq

/-- List sub-record of a ClickUp task (`task.list` in the source). -/
structure TaskListRef where
  id : String
  name : String
  deriving DecidableEq

/-- Raw dependency record as stored on a remote task record
(an element of `task.dependencies` in the source).  The module reads only
`task_id` and `depends_on` of it. -/
structure DepRecord where
  task_id : String
  depends_on : String
  deriving DecidableEq

/-- Subtask record embedded in a parent task record; the module reads
`subtask.id` and `subtask.dependencies`.  A field that may be absent in the
JSON is an `Option`. -/
structure Subtask where
  id : String
  dependencies : Option (List DepRecord)
  deriving DecidableEq

/-- The slice of a remote ClickUp task record that the dependency module
reads (`ClickUpTask` in the source). -/
structure ClickUpTask where
  id : String
  name : String
  status : TaskStatus
  list : TaskListRef
  dependencies : Option (List DepRecord)
  subtasks : Option (List Subtask)
  deriving DecidableEq

/-- Error codes used by the module (`ErrorCode` from base.js; the module
uses `NOT_FOUND` and `VALIDATION`). -/
inductive ErrorCode where
  | notFound
  | validation
  | other
  deriving DecidableEq

/-- A `ClickUpServiceError`: an error code together with a message. -/
structure SvcError where
  code : ErrorCode
  message : String
  deriving DecidableEq

/-- Body of a POST request issued by the module: the single-add path posts
an empty body, the bulk path posts `{ depends_on, dependency_type }`. -/
inductive PostBody where
  | empty
  | dependencyBody (depends_on : String) (dependency_type : Nat)
  deriving DecidableEq

/-- Provenance metadata carried by the remote response to an edge-creation
request (creating user, creation timestamp, owning workspace). -/
structure RemoteEdgeMeta where
  userid : String
  date_created : String
  workspace_id : String
  deriving DecidableEq

/-- A remote WRITE request issued by the module (remote reads are answered
by the oracle and carry no side effect). -/
inductive RemoteWrite where
  | post (endpoint : String) (body : PostBody)
  | delete (endpoint : String)
  deriving DecidableEq

/-- Oracle for the external collaborators of the module: the remote task
store, the name-lookup helper inherited from the task-core service, the
HTTP client, the configured team id, and the local wall clock.  Each remote
call either throws (`Except.error`) or returns; a task read may also return
`none` (no such task). -/
structure Env where
  getTask : String → Except SvcError (Option ClickUpTask)
  findTaskByName : String → Option String → Except SvcError (Option ClickUpTask)
  post : String → PostBody → Except SvcError RemoteEdgeMeta
  delete : String → Except SvcError Unit
  teamId : String
  now : Nat

/-- Truthiness of an optional string parameter in TypeScript: present and
non-empty. -/
def optTruthy : Option String → Bool
  | some s => s ≠ ""
  | none => false

/-- Truthiness of an optional boolean parameter in TypeScript: present and
true. -/
def boolTruthy : Option Bool → Bool
  | some b => b
  | none => false

/-- Modelled from the spec: the base-class error normaliser
`handleError(error, context)` lives in base.js, which is not part of this
repository slice.  Per the spec, local validation errors and remote errors
reach the caller with their kind and offending-reference message preserved
("Fails with whatever 4.3 raised"; "User-visible failures always include
the offending pair/reference"), so it is modelled as preserving the already
classified service error; the context string is not substituted for it. -/
def handleError (e : SvcError) (_context : String) : SvcError := e

/-- Successful-or-failed result wrapper (`ServiceResponse` in the source:
`{data, success:true}` or `{data:null, success:false, error}`). -/
inductive ServiceResponse (α : Type) where
  | ok (data : α)
  | err (error : SvcError)
  deriving DecidableEq

/-- A created dependency edge descriptor (`TaskDependency` in the source). -/
structure TaskDependency where
  task_id : String
  depends_on : String
  dependency_of : Option String
  date_created : String
  userid : String
  workspace_id : String
  type : Nat
  chain_id : Option String
  deriving DecidableEq

/-- Enriched information about one dependency counterpart
(`TaskDependencyInfo` in the source). -/
structure TaskDependencyInfo where
  task_id : String
  task_name : String
  status : String
  list : TaskListRef
  deriving DecidableEq

/-- The two edge lists of a dependency query result. -/
structure DependencyLists where
  waiting_on : List TaskDependencyInfo
  blocking : List TaskDependencyInfo
  deriving DecidableEq

/-- Identifying sub-record of the queried task. -/
structure TaskIdName where
  id : String
  name : String
  deriving DecidableEq

/-- Result of a dependency query (`TaskDependenciesResponse` in the
source). -/
structure TaskDependenciesResponse where
  task : TaskIdName
  dependencies : DependencyLists
  deriving DecidableEq

/-- Dependency type parameter of the external interface
(`DependencyType` in the source). -/
inductive DependencyType where
  | waiting_on
  | blocking
  deriving DecidableEq

/-- Parameters of `addTaskDependency` (`AddTaskDependencyParams`). -/
structure AddTaskDependencyParams where
  taskId : Option String := none
  taskName : Option String := none
  listName : Option String := none
  dependsOnTaskId : Option String := none
  dependsOnTaskName : Option String := none
  dependsOnListName : Option String := none
  dependencyType : Option DependencyType := none
  deriving DecidableEq

/-- Parameters of `getTaskDependencies` (`GetTaskDependenciesParams`). -/
structure GetTaskDependenciesParams where
  taskId : Option String := none
  taskName : Option String := none
  listName : Option String := none
  includeSubtasks : Option Bool := none
  deriving DecidableEq

/-- One item of a bulk request (`BulkDependencyItem`). -/
structure BulkDependencyItem where
  taskId : String
  dependsOn : List String
  deriving DecidableEq

/-- Options of a bulk request. -/
structure BulkOptions where
  continueOnError : Option Bool := none
  retryCount : Option Nat := none
  deriving DecidableEq

/-- Parameters of `addBulkDependencies` (`AddBulkDependenciesParams`). -/
structure AddBulkDependenciesParams where
  dependencies : List BulkDependencyItem
  options : Option BulkOptions := none
  deriving DecidableEq

/-- Entry of the `successful` list of a bulk result (`success` is the
literal `true` in the source). -/
structure BulkSuccessEntry where
  taskId : String
  dependsOn : String
  success : Bool
  deriving DecidableEq

/-- Entry of the `failed` list of a bulk result. -/
structure BulkFailedEntry where
  taskId : String
  dependsOn : String
  error : String
  deriving DecidableEq

/-- Summary counters of a bulk result. -/
structure BulkSummary where
  total : Nat
  success : Nat
  failed : Nat
  deriving DecidableEq

/-- Aggregated bulk result. -/
structure BulkResults where
  successful : List BulkSuccessEntry
  failed : List BulkFailedEntry
  summary : BulkSummary
  deriving DecidableEq

/-- The private helper `resolveTaskId(taskId?, taskName?, listName?)`:
a truthy id is returned as is; otherwise a truthy name is looked up via
`findTaskByName` (whose throw propagates) and the id of the match, if any,
is returned; otherwise null. -/
def resolveTaskId (env : Env) (taskId taskName listName : Option String) :
    Except SvcError (Option String) :=
  if optTruthy taskId then .ok taskId
  else if optTruthy taskName then
    match env.findTaskByName (taskName.getD "") listName with
    | .error e => .error e
    | .ok (some t) => .ok (some t.id)
    | .ok none => .ok none
  else .ok none

/-- The common prefix of the dependency operations: resolve the reference,
throw NOT_FOUND when it does not resolve (`if (!taskId) throw`), fetch the
task record, throw NOT_FOUND when the fetch returns null. -/
def fetchTaskForDeps (env : Env) (taskId taskName listName : Option String) :
    Except SvcError ClickUpTask :=
  match resolveTaskId env taskId taskName listName with
  | .error e => .error e
  | .ok tidOpt =>
    if optTruthy tidOpt then
      match env.getTask (tidOpt.getD "") with
      | .error e => .error e
      | .ok none => .error ⟨.notFound, "Failed to retrieve task information"⟩
      | .ok (some task) => .ok task
    else .error ⟨.notFound, "Unable to resolve task ID from provided parameters"⟩

/-- The waiting_on loop body of `getTaskDependencies`: for each dependency
record with `dep.task_id === task.id && dep.depends_on` (truthy), fetch the
counterpart task; a fetch that throws is logged and skipped, a fetch that
returns null is skipped (`if (depTask)`), otherwise an info entry is
appended. -/
def buildWaitingOn (env : Env) (taskId : String) :
    List DepRecord → List TaskDependencyInfo
  | [] => []
  | dep :: rest =>
    if dep.task_id = taskId ∧ dep.depends_on ≠ "" then
      match env.getTask dep.depends_on with
      | .ok (some depTask) =>
        { task_id := depTask.id
          task_name := depTask.name
          status := depTask.status.status
          list := { id := depTask.list.id, name := depTask.list.name } } ::
          buildWaitingOn env taskId rest
      | .ok none => buildWaitingOn env taskId rest
      | .error _ => buildWaitingOn env taskId rest
    else buildWaitingOn env taskId rest

/-- The dependency response assembled from one task record, before any
subtask handling: `waiting_on` from the recorded dependency objects (the
guard `task.dependencies && Array.isArray(...) && length > 0` in the
source), `blocking` left empty (computing it would require searching all
tasks, which the source deliberately leaves unimplemented). -/
def baseDepsResponse (env : Env) (task : ClickUpTask) : TaskDependenciesResponse :=
  let waiting :=
    match task.dependencies with
    | some deps => if deps.length > 0 then buildWaitingOn env task.id deps else []
    | none => []
  { task := { id := task.id, name := task.name }
    dependencies := { waiting_on := waiting, blocking := [] } }

/-- `getTaskDependencies` restricted to `includeSubtasks = false`; this is
exactly what the recursive call `getTaskDependencies({taskId: subtask.id,
includeSubtasks: false})` in the source computes, and is split out so the
one-level recursion is structural. -/
def getTaskDependenciesNoSub (env : Env) (taskId taskName listName : Option String) :
    ServiceResponse TaskDependenciesResponse :=
  match fetchTaskForDeps env taskId taskName listName with
  | .error e => .err (handleError e "Failed to get task dependencies")
  | .ok task => .ok (baseDepsResponse env task)

/-- The subtask loop of `getTaskDependencies`: for each subtask whose
`dependencies` field is present and non-empty, query its dependencies with
`includeSubtasks: false`; when that inner query succeeds, append its two
lists; an inner failure is skipped (`if (subtaskDeps.success && ...)`). -/
def subtaskExtra (env : Env) :
    List Subtask → List TaskDependencyInfo × List TaskDependencyInfo
  | [] => ([], [])
  | st :: rest =>
    let tail := subtaskExtra env rest
    match st.dependencies with
    | some deps =>
      if deps.length > 0 then
        match getTaskDependenciesNoSub env (some st.id) none none with
        | .ok d =>
          (d.dependencies.waiting_on ++ tail.1, d.dependencies.blocking ++ tail.2)
        | .err _ => tail
      else tail
    | none => tail

/-- `getTaskDependencies(params)`: resolve and fetch the task, assemble its
own dependency lists, and when `params.includeSubtasks` is truthy and the
task record carries a `subtasks` array, append each qualifying subtask's
lists.  Any throw is caught and returned as an unsuccessful response. -/
def getTaskDependencies (env : Env) (p : GetTaskDependenciesParams) :
    ServiceResponse TaskDependenciesResponse :=
  match fetchTaskForDeps env p.taskId p.taskName p.listName with
  | .error e => .err (handleError e "Failed to get task dependencies")
  | .ok task =>
    let base := baseDepsResponse env task
    match boolTruthy p.includeSubtasks, task.subtasks with
    | true, some subs =>
      let extra := subtaskExtra env subs
      .ok { base with dependencies :=
        { waiting_on := base.dependencies.waiting_on ++ extra.1
          blocking := base.dependencies.blocking ++ extra.2 } }
    | true, none => .ok base
    | false, _ => .ok base

/-- The private cycle guard `checkCircularDependency(taskId,
dependsOnTaskId)`: throws VALIDATION on a self-dependency; otherwise
queries the dependencies of the target and throws VALIDATION iff the
source task appears among the target's waiting_on ids; when the query is
unsuccessful the guard silently passes (`if (depsResponse.success &&
depsResponse.data)`). -/
def checkCircularDependency (env : Env) (taskId dependsOnTaskId : String) :
    Except SvcError Unit :=
  if taskId = dependsOnTaskId then
    .error ⟨.validation, "Cannot create self-dependency"⟩
  else
    match getTaskDependencies env { taskId := some dependsOnTaskId } with
    | .ok depsData =>
      let waitingOnIds := depsData.dependencies.waiting_on.map (fun d => d.task_id)
      if taskId ∈ waitingOnIds then
        .error ⟨.validation,
          "Circular dependency detected: Target task already depends on source task"⟩
      else .ok ()
    | .err _ => .ok ()

/-- `addTaskDependency(params)`: resolve both references, throw NOT_FOUND
when either is falsy, run the cycle guard, POST to
`/task/{taskId}/link/{dependsOnTaskId}` with an empty body, and build the
returned edge descriptor locally (`type: 1`, `date_created` from the local
clock, empty `userid`, the configured `teamId` as workspace).  The remote
response is bound but not read.  The second component is the trace of
remote writes the call issued. -/
def addTaskDependency (env : Env) (params : AddTaskDependencyParams) :
    ServiceResponse TaskDependency × List RemoteWrite :=
  match resolveTaskId env params.taskId params.taskName params.listName with
  | .error e => (.err (handleError e "Failed to add task dependency"), [])
  | .ok taskIdOpt =>
    match resolveTaskId env params.dependsOnTaskId params.dependsOnTaskName
        params.dependsOnListName with
    | .error e => (.err (handleError e "Failed to add task dependency"), [])
    | .ok dependsOnOpt =>
      if ¬ optTruthy taskIdOpt then
        (.err (handleError ⟨.notFound, "Unable to resolve task ID from provided parameters"⟩
          "Failed to add task dependency"), [])
      else if ¬ optTruthy dependsOnOpt then
        (.err (handleError
          ⟨.notFound, "Unable to resolve dependency task ID from provided parameters"⟩
          "Failed to add task dependency"), [])
      else
        let taskId := taskIdOpt.getD ""
        let dependsOnTaskId := dependsOnOpt.getD ""
        match checkCircularDependency env taskId dependsOnTaskId with
        | .error e => (.err (handleError e "Failed to add task dependency"), [])
        | .ok _ =>
          let endpoint := "/task/" ++ taskId ++ "/link/" ++ dependsOnTaskId
          match env.post endpoint .empty with
          | .error e =>
            (.err (handleError e "Failed to add task dependency"),
             [.post endpoint .empty])
          | .ok _ =>
            (.ok { task_id := taskId
                   depends_on := dependsOnTaskId
                   dependency_of := none
                   date_created := toString env.now
                   userid := ""
                   workspace_id := env.teamId
                   type := 1
                   chain_id := none },
             [.post endpoint .empty])

/-- The try-block of one bulk pair: run the cycle guard, then POST to
`/task/{taskId}/dependency` with body `{depends_on, dependency_type: 0}`.
The caught error message is `error.message || 'Unknown error'`.  The second
component is the trace of remote writes the attempt issued. -/
def bulkPairAttempt (env : Env) (taskId dependsOnTaskId : String) :
    Except String Unit × List RemoteWrite :=
  match checkCircularDependency env taskId dependsOnTaskId with
  | .error e =>
    (.error (if e.message = "" then "Unknown error" else e.message), [])
  | .ok _ =>
    let endpoint := "/task/" ++ taskId ++ "/dependency"
    let body := PostBody.dependencyBody dependsOnTaskId 0
    match env.post endpoint body with
    | .error e =>
      (.error (if e.message = "" then "Unknown error" else e.message),
       [.post endpoint body])
    | .ok _ => (.ok (), [.post endpoint body])

/-- Inner loop of `addBulkDependencies` over one item's `dependsOn` array:
count every attempted pair in `summary.total`, record the outcome, and
break out of the inner loop on a failure when `continueOnError` is falsy. -/
def bulkProcessDeps (env : Env) (continueOnError : Bool) (taskId : String) :
    List String → BulkResults → List RemoteWrite → BulkResults × List RemoteWrite
  | [], results, writes => (results, writes)
  | d :: rest, results, writes =>
    let results := { results with
      summary := { results.summary with total := results.summary.total + 1 } }
    match bulkPairAttempt env taskId d with
    | (.ok _, w) =>
      let results := { results with
        successful := results.successful ++ [⟨taskId, d, true⟩]
        summary := { results.summary with success := results.summary.success + 1 } }
      bulkProcessDeps env continueOnError taskId rest results (writes ++ w)
    | (.error msg, w) =>
      let results := { results with
        failed := results.failed ++ [⟨taskId, d, msg⟩]
        summary := { results.summary with failed := results.summary.failed + 1 } }
      if continueOnError then
        bulkProcessDeps env continueOnError taskId rest results (writes ++ w)
      else (results, writes ++ w)

/-- Outer loop of `addBulkDependencies` over the batch items; after each
item it stops when `continueOnError` is falsy and some pair has failed. -/
def bulkProcessItems (env : Env) (continueOnError : Bool) :
    List BulkDependencyItem → BulkResults → List RemoteWrite →
      BulkResults × List RemoteWrite
  | [], results, writes => (results, writes)
  | item :: rest, results, writes =>
    match bulkProcessDeps env continueOnError item.taskId item.dependsOn results writes with
    | (results, writes) =>
      if ¬ continueOnError ∧ results.failed.length > 0 then (results, writes)
      else bulkProcessItems env continueOnError rest results writes

/-- The effective `continueOnError` flag: the source tests
`!params.options?.continueOnError`, so the flag is the truthiness of
`options?.continueOnError`. -/
def effectiveContinueOnError (params : AddBulkDependenciesParams) : Bool :=
  boolTruthy (params.options.bind fun o => o.continueOnError)

/-- `addBulkDependencies(params)`: run the two nested loops starting from
empty result lists and zero counters.  Nothing in the loop escapes the
per-pair catch, so the call itself always returns a successful response
carrying the aggregated results.  `options.retryCount` is never read by the
source.  The second component is the trace of remote writes. -/
def addBulkDependencies (env : Env) (params : AddBulkDependenciesParams) :
    ServiceResponse BulkResults × List RemoteWrite :=
  match bulkProcessItems env (effectiveContinueOnError params) params.dependencies
      ⟨[], [], ⟨0, 0, 0⟩⟩ [] with
  | (results, writes) => (.ok results, writes)

/-- Flattening of a batch into its ordered `(dependent, dependency)`
pairs. -/
def flatPairs (items : List BulkDependencyItem) : List (String × String) :=
  items.flatMap fun it => it.dependsOn.map fun d => (it.taskId, d)

/-- Pairs reported in the successful list. -/
def pairsOfSucc (l : List BulkSuccessEntry) : List (String × String) :=
  l.map fun e => (e.taskId, e.dependsOn)

/-- Pairs reported in the failed list. -/
def pairsOfFail (l : List BulkFailedEntry) : List (String × String) :=
  l.map fun e => (e.taskId, e.dependsOn)

/-- Decidable equality for `Except` results, so that concrete evaluations
of the embedded operations can be checked by `decide`. -/
instance {ε α : Type} [DecidableEq ε] [DecidableEq α] : DecidableEq (Except ε α) := fun a b =>
  match a, b with
  | .ok x, .ok y =>
    if h : x = y then .isTrue (by rw [h]) else .isFalse (by intro hc; cases hc; exact h rfl)
  | .error x, .error y =>
    if h : x = y then .isTrue (by rw [h]) else .isFalse (by intro hc; cases hc; exact h rfl)
  | .ok _, .error _ => .isFalse (by intro hc; cases hc)
  | .error _, .ok _ => .isFalse (by intro hc; cases hc)

/-- Concrete demo task A: no recorded dependencies. -/
def taskA : ClickUpTask :=
  { id := "A", name := "Task A", status := ⟨"open"⟩, list := ⟨"L1", "List 1"⟩
    dependencies := none, subtasks := none }

/-- Concrete demo task B: B waits on A (one recorded dependency object). -/
def taskB : ClickUpTask :=
  { id := "B", name := "Task B", status := ⟨"open"⟩, list := ⟨"L1", "List 1"⟩
    dependencies := some [⟨"B", "A"⟩], subtasks := none }

/-- Demo oracle: the store holds tasks A and B, writes succeed and return
remote-supplied provenance metadata. -/
def envDemo : Env :=
  { getTask := fun id =>
      if id = "A" then .ok (some taskA)
      else if id = "B" then .ok (some taskB)
      else .ok none
    findTaskByName := fun _ _ => .ok none
    post := fun _ _ => .ok ⟨"remote-user", "remote-date", "remote-ws"⟩
    delete := fun _ => .ok ()
    teamId := "team1"
    now := 1700000000 }

/-- Demo oracle whose task reads all throw (the dependency query on any
task is unsuccessful) and whose writes succeed. -/
def envQueryFail : Env :=
  { getTask := fun _ => .error ⟨.other, "read failed"⟩
    findTaskByName := fun _ _ => .ok none
    post := fun _ _ => .ok ⟨"remote-user", "remote-date", "remote-ws"⟩
    delete := fun _ => .ok ()
    teamId := "team1"
    now := 1700000000 }

/-- Demo oracle for transient write failures: no task records exist (so the
one-hop guard finds nothing and passes) and every write throws
ECONNRESET. -/
def envPostFail : Env :=
  { getTask := fun _ => .ok none
    findTaskByName := fun _ _ => .ok none
    post := fun _ _ => .error ⟨.other, "ECONNRESET"⟩
    delete := fun _ => .ok ()
    teamId := "team1"
    now := 1700000000 }

/-- Concrete evaluation of the dependency query on demo task B. -/
def demoBDeps : TaskDependenciesResponse :=
  { task := ⟨"B", "Task B"⟩
    dependencies :=
      { waiting_on := [⟨"A", "Task A", "open", ⟨"L1", "List 1"⟩⟩]
        blocking := [] } }

/-- Edge descriptor built by the demo single add of B waits-on A. -/
def demoDesc : TaskDependency :=
  { task_id := "B", depends_on := "A", dependency_of := none
    date_created := "1700000000", userid := "", workspace_id := "team1"
    type := 1, chain_id := none }

/-- C1: for every task ID x (task IDs are non-empty strings), the cycle
guard rejects the self-edge (x, x) with the VALIDATION self-dependency
error, and `addTaskDependency` on (x, x) returns that failure with an empty
remote-write trace: the failure is raised before any remote write is
issued. -/
theorem spec_C1_selfDependency (env : Env) (x : String) (hx : x ≠ "") :
    checkCircularDependency env x x =
      .error ⟨.validation, "Cannot create self-dependency"⟩ ∧
    addTaskDependency env { taskId := some x, dependsOnTaskId := some x } =
      (.err ⟨.validation, "Cannot create self-dependency"⟩, []) := by
  have hcheck : checkCircularDependency env x x =
      .error ⟨.validation, "Cannot create self-dependency"⟩ := by
    unfold checkCircularDependency
    simp
  refine ⟨hcheck, ?_⟩
  unfold addTaskDependency resolveTaskId
  simp [optTruthy, hx, hcheck, handleError]

/-- Witness for C1 at x = "T1" in the demo environment. -/
theorem spec_C1_selfDependency_witness :
    ("T1" : String) ≠ "" ∧
    (checkCircularDependency envDemo "T1" "T1" =
        .error ⟨.validation, "Cannot create self-dependency"⟩ ∧
      addTaskDependency envDemo { taskId := some "T1", dependsOnTaskId := some "T1" } =
        (.err ⟨.validation, "Cannot create self-dependency"⟩, [])) :=
  ⟨by decide, spec_C1_selfDependency envDemo "T1" (by decide)⟩

/-- C2: for distinct non-empty task IDs a and b, if the dependency query on
b succeeds and reports a among b's waiting_on task ids, the cycle guard for
add(a, b) fails with the VALIDATION circular-dependency error, and
`addTaskDependency` on (a, b) returns that failure with an empty
remote-write trace: the edge-creation write is not issued. -/
theorem spec_C2_circularDependency (env : Env) (a b : String)
    (dd : TaskDependenciesResponse)
    (hab : a ≠ b) (ha : a ≠ "") (hb : b ≠ "")
    (hq : getTaskDependencies env { taskId := some b } = .ok dd)
    (hmem : a ∈ dd.dependencies.waiting_on.map (fun d => d.task_id)) :
    checkCircularDependency env a b =
      .error ⟨.validation,
        "Circular dependency detected: Target task already depends on source task"⟩ ∧
    addTaskDependency env { taskId := some a, dependsOnTaskId := some b } =
      (.err ⟨.validation,
        "Circular dependency detected: Target task already depends on source task"⟩, []) := by
  have hcheck : checkCircularDependency env a b =
      .error ⟨.validation,
        "Circular dependency detected: Target task already depends on source task"⟩ := by
    unfold checkCircularDependency
    simp [hab, hq, hmem]
  refine ⟨hcheck, ?_⟩
  unfold addTaskDependency resolveTaskId
  simp [optTruthy, ha, hb, hcheck, handleError]

/-- Witness for C2 at a = "A", b = "B" in the demo environment, where task
B already waits on task A. -/
theorem spec_C2_circularDependency_witness :
    (("A" : String) ≠ "B" ∧ ("A" : String) ≠ "" ∧ ("B" : String) ≠ "" ∧
      getTaskDependencies envDemo { taskId := some "B" } = .ok demoBDeps ∧
      "A" ∈ demoBDeps.dependencies.waiting_on.map (fun d => d.task_id)) ∧
    (checkCircularDependency envDemo "A" "B" =
        .error ⟨.validation,
          "Circular dependency detected: Target task already depends on source task"⟩ ∧
      addTaskDependency envDemo { taskId := some "A", dependsOnTaskId := some "B" } =
        (.err ⟨.validation,
          "Circular dependency detected: Target task already depends on source task"⟩, [])) :=
  ⟨⟨by decide, by decide, by decide, by decide, by decide⟩,
    spec_C2_circularDependency envDemo "A" "B" demoBDeps (by decide) (by decide)
      (by decide) (by decide) (by decide)⟩

/-- C9: when the dependency query on the target task is unsuccessful, the
cycle guard silently passes, and the add proceeds to issue the remote
edge-creation write (whatever its outcome): no one-hop cycle check is in
effect for that pair. -/
theorem spec_C9_guardSkippedOnQueryFailure (env : Env) (a b : String) (e : SvcError)
    (ha : a ≠ "") (hb : b ≠ "") (hab : a ≠ b)
    (hq : getTaskDependencies env { taskId := some b } = .err e) :
    checkCircularDependency env a b = .ok () ∧
    (addTaskDependency env { taskId := some a, dependsOnTaskId := some b }).2 =
      [.post ("/task/" ++ a ++ "/link/" ++ b) .empty] := by
  have hcheck : checkCircularDependency env a b = .ok () := by
    unfold checkCircularDependency
    simp [hab, hq]
  refine ⟨hcheck, ?_⟩
  unfold addTaskDependency resolveTaskId
  cases hpost : env.post ("/task/" ++ a ++ "/link/" ++ b) .empty with
  | error er => simp [optTruthy, ha, hb, hcheck, hpost]
  | ok m => simp [optTruthy, ha, hb, hcheck, hpost]

/-- Witness for C9 at a = "A", b = "B" in the environment whose task reads
all throw. -/
theorem spec_C9_guardSkippedOnQueryFailure_witness :
    (("A" : String) ≠ "" ∧ ("B" : String) ≠ "" ∧ ("A" : String) ≠ "B" ∧
      getTaskDependencies envQueryFail { taskId := some "B" } =
        .err ⟨.other, "read failed"⟩) ∧
    (checkCircularDependency envQueryFail "A" "B" = .ok () ∧
      (addTaskDependency envQueryFail { taskId := some "A", dependsOnTaskId := some "B" }).2 =
        [.post ("/task/" ++ "A" ++ "/link/" ++ "B") .empty]) :=
  ⟨⟨by decide, by decide, by decide, by decide⟩,
    spec_C9_guardSkippedOnQueryFailure envQueryFail "A" "B" ⟨.other, "read failed"⟩
      (by decide) (by decide) (by decide) (by decide)⟩

/-- C10: `dependencyType` has no effect on `addTaskDependency` — two calls
differing only in that parameter return the same response and issue the
same remote requests — and any successfully returned edge descriptor has
the constant type field 1. -/
theorem spec_C10_dependencyTypeUnused (env : Env) (p : AddTaskDependencyParams)
    (dt : Option DependencyType) :
    addTaskDependency env { p with dependencyType := dt } = addTaskDependency env p ∧
    ∀ d w, addTaskDependency env p = (.ok d, w) → d.type = 1 := by
  constructor
  · cases p
    rfl
  · intro d w hd
    unfold addTaskDependency at hd
    split at hd
    · simp at hd
    · split at hd
      · simp at hd
      · split at hd
        · simp at hd
        · split at hd
          · simp at hd
          · dsimp only at hd
            split at hd
            · simp at hd
            · split at hd
              · simp at hd
              · rw [Prod.mk.injEq] at hd
                cases hd.1
                rfl

/-- Witness for C10 on the demo environment: flipping dependencyType to
blocking changes nothing, and the concrete returned descriptor has type 1. -/
theorem spec_C10_dependencyTypeUnused_witness :
    addTaskDependency envDemo
        { taskId := some "B", dependsOnTaskId := some "A",
          dependencyType := some .blocking } =
      addTaskDependency envDemo { taskId := some "B", dependsOnTaskId := some "A" } ∧
    addTaskDependency envDemo { taskId := some "B", dependsOnTaskId := some "A" } =
      (.ok demoDesc, [.post "/task/B/link/A" .empty]) ∧
    demoDesc.type = 1 :=
  ⟨(spec_C10_dependencyTypeUnused envDemo
      { taskId := some "B", dependsOnTaskId := some "A" } (some .blocking)).1,
    by decide,
    (spec_C10_dependencyTypeUnused envDemo
      { taskId := some "B", dependsOnTaskId := some "A" } (some .blocking)).2
      demoDesc [.post "/task/B/link/A" .empty] (by decide)⟩

/-- Helper: a successful subtask-free dependency query always carries an
empty blocking list, since the assembled base response never fills it. -/
theorem noSub_blocking_empty (env : Env) (a b c : Option String)
    (d : TaskDependenciesResponse)
    (h : getTaskDependenciesNoSub env a b c = .ok d) :
    d.dependencies.blocking = [] := by
  unfold getTaskDependenciesNoSub at h
  split at h
  · simp at h
  · rw [ServiceResponse.ok.injEq] at h
    cases h
    rfl

/-- Helper: the blocking half accumulated over subtasks is always empty,
because each inner query contributes its own (empty) blocking list. -/
theorem subtaskExtra_blocking_empty (env : Env) (subs : List Subtask) :
    (subtaskExtra env subs).2 = [] := by
  induction subs with
  | nil => rfl
  | cons st rest ih =>
    unfold subtaskExtra
    cases hd : st.dependencies with
    | none => simpa [hd] using ih
    | some deps =>
      by_cases hl : deps.length > 0
      · cases hq : getTaskDependenciesNoSub env (some st.id) none none with
        | ok dres =>
          simp [hd, hl, hq, noSub_blocking_empty env _ _ _ _ hq, ih]
        | err e => simpa [hd, hl, hq] using ih
      · simpa [hd, hl] using ih

/-- C8: every successful `getTaskDependencies` result has an empty blocking
list, for every task reference and every value of includeSubtasks; in
particular the module never computes blocking entries by inverse search.
(The source only ever copies blocking entries out of its own query results,
which are themselves always empty, so the list is empty a fortiori whether
or not the remote record supplies blocking information.) -/
theorem spec_C8_blockingAlwaysEmpty (env : Env) (p : GetTaskDependenciesParams)
    (d : TaskDependenciesResponse)
    (h : getTaskDependencies env p = .ok d) :
    d.dependencies.blocking = [] := by
  unfold getTaskDependencies at h
  split at h
  · simp at h
  · dsimp only at h
    split at h
    · rw [ServiceResponse.ok.injEq] at h
      cases h
      simpa [baseDepsResponse] using subtaskExtra_blocking_empty env _
    · rw [ServiceResponse.ok.injEq] at h
      cases h
      rfl
    · rw [ServiceResponse.ok.injEq] at h
      cases h
      rfl

/-- Witness for C8 on the demo environment with includeSubtasks set. -/
theorem spec_C8_blockingAlwaysEmpty_witness :
    getTaskDependencies envDemo { taskId := some "B", includeSubtasks := some true } =
      .ok demoBDeps ∧
    demoBDeps.dependencies.blocking = [] :=
  ⟨by decide,
    spec_C8_blockingAlwaysEmpty envDemo
      { taskId := some "B", includeSubtasks := some true } demoBDeps (by decide)⟩

/-- Helper: the inner bulk loop keeps the counter invariant: total counts
exactly the attempted pairs, each attempted pair lands in exactly one of
the two lists, and the counters equal the list lengths. -/
theorem bulkProcessDeps_inv (env : Env) (c : Bool) (taskId : String) :
    ∀ (ds : List String) (res : BulkResults) (ws : List RemoteWrite),
      res.summary.total = res.summary.success + res.summary.failed →
      res.successful.length = res.summary.success →
      res.failed.length = res.summary.failed →
      (bulkProcessDeps env c taskId ds res ws).1.summary.total =
          (bulkProcessDeps env c taskId ds res ws).1.summary.success +
          (bulkProcessDeps env c taskId ds res ws).1.summary.failed ∧
      (bulkProcessDeps env c taskId ds res ws).1.successful.length =
          (bulkProcessDeps env c taskId ds res ws).1.summary.success ∧
      (bulkProcessDeps env c taskId ds res ws).1.failed.length =
          (bulkProcessDeps env c taskId ds res ws).1.summary.failed := by
  intro ds
  induction ds with
  | nil => intro res ws h1 h2 h3; exact ⟨h1, h2, h3⟩
  | cons d rest ih =>
    intro res ws h1 h2 h3
    cases hpa : bulkPairAttempt env taskId d with
    | mk out w =>
      cases out with
      | ok u =>
        simp only [bulkProcessDeps, hpa]
        exact ih _ _ (by dsimp only; omega) (by dsimp only; simp [h2])
          (by dsimp only; exact h3)
      | error msg =>
        simp only [bulkProcessDeps, hpa]
        cases c with
        | true =>
          rw [if_pos rfl]
          exact ih _ _ (by dsimp only; omega) (by dsimp only; exact h2)
            (by dsimp only; simp [h3])
        | false =>
          rw [if_neg (by simp)]
          refine ⟨by dsimp only; omega, by dsimp only; exact h2,
            by dsimp only; simp [h3]⟩

/-- Helper: the outer bulk loop keeps the same counter invariant. -/
theorem bulkProcessItems_inv (env : Env) (c : Bool) :
    ∀ (items : List BulkDependencyItem) (res : BulkResults) (ws : List RemoteWrite),
      res.summary.total = res.summary.success + res.summary.failed →
      res.successful.length = res.summary.success →
      res.failed.length = res.summary.failed →
      (bulkProcessItems env c items res ws).1.summary.total =
          (bulkProcessItems env c items res ws).1.summary.success +
          (bulkProcessItems env c items res ws).1.summary.failed ∧
      (bulkProcessItems env c items res ws).1.successful.length =
          (bulkProcessItems env c items res ws).1.summary.success ∧
      (bulkProcessItems env c items res ws).1.failed.length =
          (bulkProcessItems env c items res ws).1.summary.failed := by
  intro items
  induction items with
  | nil => intro res ws h1 h2 h3; exact ⟨h1, h2, h3⟩
  | cons item rest ih =>
    intro res ws h1 h2 h3
    obtain ⟨g1, g2, g3⟩ := bulkProcessDeps_inv env c item.taskId item.dependsOn res ws h1 h2 h3
    simp only [bulkProcessItems]
    cases hpr : bulkProcessDeps env c item.taskId item.dependsOn res ws with
    | mk res1 ws1 =>
      rw [hpr] at g1 g2 g3
      by_cases hstop : ¬ c ∧ res1.failed.length > 0
      · rw [if_pos hstop]
        exact ⟨g1, g2, g3⟩
      · rw [if_neg hstop]
        exact ih res1 ws1 g1 g2 g3

/-- Helper: with continueOnError in force the inner loop never breaks, so
it counts every element of the dependsOn array. -/
theorem bulkProcessDeps_true_total (env : Env) (taskId : String) :
    ∀ (ds : List String) (res : BulkResults) (ws : List RemoteWrite),
      (bulkProcessDeps env true taskId ds res ws).1.summary.total =
        res.summary.total + ds.length := by
  intro ds
  induction ds with
  | nil => intro res ws; rfl
  | cons d rest ih =>
    intro res ws
    cases hpa : bulkPairAttempt env taskId d with
    | mk out w =>
      cases out with
      | ok u =>
        simp only [bulkProcessDeps, hpa]
        rw [ih]
        dsimp only
        simp [Nat.add_comm, Nat.add_assoc, Nat.add_left_comm]
      | error msg =>
        simp only [bulkProcessDeps, hpa]
        rw [if_pos trivial, ih]
        dsimp only
        simp [Nat.add_comm, Nat.add_assoc, Nat.add_left_comm]

/-- Helper: with continueOnError in force the outer loop never stops early,
so the grand total is the sum of all dependsOn lengths. -/
theorem bulkProcessItems_true_total (env : Env) :
    ∀ (items : List BulkDependencyItem) (res : BulkResults) (ws : List RemoteWrite),
      (bulkProcessItems env true items res ws).1.summary.total =
        res.summary.total + (items.map fun it => it.dependsOn.length).sum := by
  intro items
  induction items with
  | nil => intro res ws; simp [bulkProcessItems]
  | cons item rest ih =>
    intro res ws
    simp only [bulkProcessItems]
    cases hpr : bulkProcessDeps env true item.taskId item.dependsOn res ws with
    | mk res1 ws1 =>
      rw [if_neg (by simp)]
      rw [ih]
      have := bulkProcessDeps_true_total env item.taskId item.dependsOn res ws
      rw [hpr] at this
      rw [this]
      simp [Nat.add_assoc]

/-- C4: with continueOnError in force, the bulk call attempts every
(taskId, dependsOn-element) pair of every item: the returned total equals
the sum of all dependsOn lengths, every attempted pair is accounted for in
exactly one of the two lists, and the counters match the list lengths. -/
theorem spec_C4_continueOnErrorTrue (env : Env) (params : AddBulkDependenciesParams)
    (r : BulkResults) (w : List RemoteWrite)
    (hc : effectiveContinueOnError params = true)
    (hr : addBulkDependencies env params = (.ok r, w)) :
    r.summary.total = (params.dependencies.map fun it => it.dependsOn.length).sum ∧
    r.summary.total = r.summary.success + r.summary.failed ∧
    r.successful.length + r.failed.length = r.summary.total := by
  have hres : r = (bulkProcessItems env (effectiveContinueOnError params)
      params.dependencies ⟨[], [], ⟨0, 0, 0⟩⟩ []).1 := by
    unfold addBulkDependencies at hr
    cases hpr : bulkProcessItems env (effectiveContinueOnError params)
        params.dependencies ⟨[], [], ⟨0, 0, 0⟩⟩ [] with
    | mk r0 w0 =>
      rw [hpr] at hr
      dsimp only at hr
      rw [Prod.mk.injEq] at hr
      cases hr.1
      rfl
  rw [hc] at hres
  obtain ⟨g1, g2, g3⟩ := bulkProcessItems_inv env true params.dependencies
    ⟨[], [], ⟨0, 0, 0⟩⟩ [] rfl rfl rfl
  have gt := bulkProcessItems_true_total env params.dependencies ⟨[], [], ⟨0, 0, 0⟩⟩ []
  refine ⟨?_, ?_, ?_⟩
  · rw [hres, gt]; simp
  · rw [hres]; exact g1
  · rw [hres]; rw [g2, g3]; omega

/-- Witness for C4: a two-pair batch whose second pair is a self-dependency
still attempts both pairs under continueOnError. -/
theorem spec_C4_continueOnErrorTrue_witness :
    (effectiveContinueOnError
        { dependencies := [⟨"B", ["A", "B"]⟩]
          options := some { continueOnError := some true } } = true ∧
      addBulkDependencies envDemo
        { dependencies := [⟨"B", ["A", "B"]⟩]
          options := some { continueOnError := some true } } =
        (.ok ⟨[⟨"B", "A", true⟩], [⟨"B", "B", "Cannot create self-dependency"⟩],
            ⟨2, 1, 1⟩⟩,
          [.post "/task/B/dependency" (.dependencyBody "A" 0)])) ∧
    ((⟨2, 1, 1⟩ : BulkSummary).total =
        (([⟨"B", ["A", "B"]⟩] : List BulkDependencyItem).map
          fun it => it.dependsOn.length).sum ∧
      (⟨2, 1, 1⟩ : BulkSummary).total =
        (⟨2, 1, 1⟩ : BulkSummary).success + (⟨2, 1, 1⟩ : BulkSummary).failed ∧
      ([⟨"B", "A", true⟩] : List BulkSuccessEntry).length +
        ([⟨"B", "B", "Cannot create self-dependency"⟩] : List BulkFailedEntry).length =
        (⟨2, 1, 1⟩ : BulkSummary).total) :=
  ⟨⟨by decide, by decide⟩,
    spec_C4_continueOnErrorTrue envDemo
      { dependencies := [⟨"B", ["A", "B"]⟩]
        options := some { continueOnError := some true } }
      ⟨[⟨"B", "A", true⟩], [⟨"B", "B", "Cannot create self-dependency"⟩], ⟨2, 1, 1⟩⟩
      [.post "/task/B/dependency" (.dependencyBody "A" 0)]
      (by decide) (by decide)⟩

/-- Helper: with continueOnError falsy, the inner loop reports a prefix of
the item's pairs: the successes it appends, then at most one failure, after
which nothing further from the item is reported; when no failure occurred
the whole item was processed. -/
theorem bulkProcessDeps_false_shape (env : Env) (taskId : String) :
    ∀ (ds : List String) (res : BulkResults) (ws : List RemoteWrite),
      res.failed = [] →
      ∃ newS newF t,
        (bulkProcessDeps env false taskId ds res ws).1.successful =
          res.successful ++ newS ∧
        (bulkProcessDeps env false taskId ds res ws).1.failed = newF ∧
        newF.length ≤ 1 ∧
        pairsOfSucc newS ++ pairsOfFail newF ++ t =
          ds.map (fun d => (taskId, d)) ∧
        (newF = [] → t = []) := by
  intro ds
  induction ds with
  | nil =>
    intro res ws hf
    exact ⟨[], [], [], by simp [bulkProcessDeps], by simp [bulkProcessDeps, hf],
      by simp, by simp [pairsOfSucc, pairsOfFail], fun _ => rfl⟩
  | cons d rest ih =>
    intro res ws hf
    cases hpa : bulkPairAttempt env taskId d with
    | mk out w =>
      cases out with
      | ok u =>
        simp only [bulkProcessDeps, hpa]
        obtain ⟨newS, newF, t, h1, h2, h3, h4, h5⟩ :=
          ih { successful := res.successful ++ [⟨taskId, d, true⟩]
               failed := res.failed
               summary := { total := res.summary.total + 1
                            success := res.summary.success + 1
                            failed := res.summary.failed } } (ws ++ w) (by simp [hf])
        refine ⟨⟨taskId, d, true⟩ :: newS, newF, t, ?_, h2, h3, ?_, h5⟩
        · rw [h1]
          simp
        · simp only [pairsOfSucc] at h4 ⊢
          simp only [List.map_cons, List.cons_append]
          exact congrArg _ h4
      | error msg =>
        simp only [bulkProcessDeps, hpa]
        rw [if_neg (by simp)]
        exact ⟨[], [⟨taskId, d, msg⟩], rest.map (fun d => (taskId, d)),
          by simp, by simp [hf], by simp,
          by simp [pairsOfSucc, pairsOfFail], by simp⟩

/-- Helper: unfolding of the batch flattening on a cons cell. -/
theorem flatPairs_cons (item : BulkDependencyItem) (rest : List BulkDependencyItem) :
    flatPairs (item :: rest) =
      item.dependsOn.map (fun d => (item.taskId, d)) ++ flatPairs rest := by
  simp [flatPairs]

/-- Helper: with continueOnError falsy, the outer loop reports a prefix of
the flattened batch: the successes, then at most one failure, and nothing
after the failure. -/
theorem bulkProcessItems_false_shape (env : Env) :
    ∀ (items : List BulkDependencyItem) (res : BulkResults) (ws : List RemoteWrite),
      res.failed = [] →
      ∃ newS newF t,
        (bulkProcessItems env false items res ws).1.successful =
          res.successful ++ newS ∧
        (bulkProcessItems env false items res ws).1.failed = newF ∧
        newF.length ≤ 1 ∧
        pairsOfSucc newS ++ pairsOfFail newF ++ t = flatPairs items ∧
        (newF = [] → t = []) := by
  intro items
  induction items with
  | nil =>
    intro res ws hf
    exact ⟨[], [], [], by simp [bulkProcessItems], by simp [bulkProcessItems, hf],
      by simp, by simp [pairsOfSucc, pairsOfFail, flatPairs], fun _ => rfl⟩
  | cons item rest ih =>
    intro res ws hf
    obtain ⟨s1, f1, t1, a1, a2, a3, a4, a5⟩ :=
      bulkProcessDeps_false_shape env item.taskId item.dependsOn res ws hf
    simp only [bulkProcessItems]
    cases hpr : bulkProcessDeps env false item.taskId item.dependsOn res ws with
    | mk res1 ws1 =>
      rw [hpr] at a1 a2
      dsimp only at a1 a2
      cases f1emp : f1 with
      | nil =>
        have hres1f : res1.failed = [] := by rw [a2, f1emp]
        rw [if_neg (by simp [hres1f])]
        have ht1 : t1 = [] := a5 f1emp
        have hs1 : pairsOfSucc s1 = item.dependsOn.map (fun d => (item.taskId, d)) := by
          rw [f1emp, ht1] at a4
          simpa [pairsOfFail] using a4
        obtain ⟨s2, f2, t2, b1, b2, b3, b4, b5⟩ := ih res1 ws1 hres1f
        refine ⟨s1 ++ s2, f2, t2, ?_, b2, b3, ?_, b5⟩
        · rw [b1, a1, List.append_assoc]
        · show pairsOfSucc (s1 ++ s2) ++ pairsOfFail f2 ++ t2 = flatPairs (item :: rest)
          have hsplit : pairsOfSucc (s1 ++ s2) = pairsOfSucc s1 ++ pairsOfSucc s2 := by
            simp [pairsOfSucc]
          rw [hsplit, hs1, flatPairs_cons]
          simp only [List.append_assoc] at b4 ⊢
          exact congrArg _ b4
      | cons f fs =>
        have hpos : res1.failed.length > 0 := by rw [a2, f1emp]; simp
        rw [if_pos ⟨by simp, hpos⟩]
        refine ⟨s1, f1, t1 ++ flatPairs rest, a1, a2, a3, ?_, ?_⟩
        · show pairsOfSucc s1 ++ pairsOfFail f1 ++ (t1 ++ flatPairs rest) =
            flatPairs (item :: rest)
          rw [flatPairs_cons, ← a4]
          simp [List.append_assoc]
        · intro h
          rw [f1emp] at h
          cases h

/-- C3: when continueOnError is false or the options are absent, the bulk
call stops at the first failing pair: the returned total equals success
plus failed, at most one failure is recorded, and the pairs reported in the
successful list followed by the failed list form a prefix of the flattened
batch — so no pair occurring after the first failing pair (in flattened
input order) appears in either list. -/
theorem spec_C3_stopOnFirstFailure (env : Env) (params : AddBulkDependenciesParams)
    (r : BulkResults) (w : List RemoteWrite)
    (hc : effectiveContinueOnError params = false)
    (hr : addBulkDependencies env params = (.ok r, w)) :
    r.summary.total = r.summary.success + r.summary.failed ∧
    r.failed.length ≤ 1 ∧
    ∃ t, pairsOfSucc r.successful ++ pairsOfFail r.failed ++ t =
      flatPairs params.dependencies := by
  have hres : r = (bulkProcessItems env (effectiveContinueOnError params)
      params.dependencies ⟨[], [], ⟨0, 0, 0⟩⟩ []).1 := by
    unfold addBulkDependencies at hr
    cases hpr : bulkProcessItems env (effectiveContinueOnError params)
        params.dependencies ⟨[], [], ⟨0, 0, 0⟩⟩ [] with
    | mk r0 w0 =>
      rw [hpr] at hr
      dsimp only at hr
      rw [Prod.mk.injEq] at hr
      cases hr.1
      rfl
  rw [hc] at hres
  obtain ⟨g1, g2, g3⟩ := bulkProcessItems_inv env false params.dependencies
    ⟨[], [], ⟨0, 0, 0⟩⟩ [] rfl rfl rfl
  obtain ⟨newS, newF, t, h1, h2, h3, h4, h5⟩ :=
    bulkProcessItems_false_shape env params.dependencies ⟨[], [], ⟨0, 0, 0⟩⟩ [] rfl
  refine ⟨by rw [hres]; exact g1, ?_, ?_⟩
  · rw [hres, h2]
    exact h3
  · refine ⟨t, ?_⟩
    rw [hres, h1, h2]
    simpa using h4

/-- Witness for C3: a batch whose first pair is a self-dependency, with no
options given; the second pair is neither attempted nor reported. -/
theorem spec_C3_stopOnFirstFailure_witness :
    (effectiveContinueOnError { dependencies := [⟨"B", ["B", "A"]⟩] } = false ∧
      addBulkDependencies envDemo { dependencies := [⟨"B", ["B", "A"]⟩] } =
        (.ok ⟨[], [⟨"B", "B", "Cannot create self-dependency"⟩], ⟨1, 0, 1⟩⟩, [])) ∧
    ((⟨1, 0, 1⟩ : BulkSummary).total =
        (⟨1, 0, 1⟩ : BulkSummary).success + (⟨1, 0, 1⟩ : BulkSummary).failed ∧
      ([⟨"B", "B", "Cannot create self-dependency"⟩] : List BulkFailedEntry).length ≤ 1 ∧
      ∃ t, pairsOfSucc [] ++
          pairsOfFail [⟨"B", "B", "Cannot create self-dependency"⟩] ++ t =
          flatPairs [⟨"B", ["B", "A"]⟩]) :=
  ⟨⟨by decide, by decide⟩,
    spec_C3_stopOnFirstFailure envDemo { dependencies := [⟨"B", ["B", "A"]⟩] }
      ⟨[], [⟨"B", "B", "Cannot create self-dependency"⟩], ⟨1, 0, 1⟩⟩ []
      (by decide) (by decide)⟩

/-- C5: `options.retryCount` is never read by the bulk implementation.  At
the concrete failing input — one pair whose remote write fails transiently
(ECONNRESET) and `retryCount := 2` — the pair is recorded as failed after a
single attempt: exactly one remote write is issued, no retry and no re-run
of the cycle guard happen, and the outcome is identical with
`retryCount := 0`. -/
theorem spec_C5_retryCountIgnored :
    addBulkDependencies envPostFail
        { dependencies := [⟨"T1", ["T2"]⟩]
          options := some { continueOnError := some true, retryCount := some 2 } } =
      (.ok ⟨[], [⟨"T1", "T2", "ECONNRESET"⟩], ⟨1, 0, 1⟩⟩,
        [.post "/task/T1/dependency" (.dependencyBody "T2" 0)]) ∧
    addBulkDependencies envPostFail
        { dependencies := [⟨"T1", ["T2"]⟩]
          options := some { continueOnError := some true, retryCount := some 0 } } =
      addBulkDependencies envPostFail
        { dependencies := [⟨"T1", ["T2"]⟩]
          options := some { continueOnError := some true, retryCount := some 2 } } :=
  ⟨by decide, by decide⟩

/-- C6 counterexample: for the same pair (B, A) under the same oracle, the
bulk path and the single-operation path issue different remote
edge-creation requests (different endpoint and different body), so the
per-pair bulk processing is not the single-operation pipeline. -/
theorem spec_C6_counterexample :
    (addBulkDependencies envDemo { dependencies := [⟨"B", ["A"]⟩] }).2 =
      [.post "/task/B/dependency" (.dependencyBody "A" 0)] ∧
    (addTaskDependency envDemo { taskId := some "B", dependsOnTaskId := some "A" }).2 =
      [.post "/task/B/link/A" .empty] ∧
    ([.post "/task/B/dependency" (.dependencyBody "A" 0)] : List RemoteWrite) ≠
      [.post "/task/B/link/A" .empty] :=
  ⟨by decide, by decide, by decide⟩

/-- C6 amended: for every pair, the bulk per-pair processing runs the same
cycle guard as the single operation (and issues nothing when the guard
fails), but it performs no reference resolution (its inputs are used as
task IDs directly) and, when the guard passes, it issues POST
/task/{taskId}/dependency with body {depends_on, dependency_type: 0},
whereas the single operation issues POST /task/{taskId}/link/{dependsOn}
with an empty body. -/
theorem spec_C6_amended (env : Env) (t d : String) (ht : t ≠ "") (hd : d ≠ "") :
    (∀ e, checkCircularDependency env t d = .error e →
      (bulkPairAttempt env t d).2 = []) ∧
    (checkCircularDependency env t d = .ok () →
      (bulkPairAttempt env t d).2 =
        [.post ("/task/" ++ t ++ "/dependency") (.dependencyBody d 0)] ∧
      (addTaskDependency env { taskId := some t, dependsOnTaskId := some d }).2 =
        [.post ("/task/" ++ t ++ "/link/" ++ d) .empty]) := by
  constructor
  · intro e he
    unfold bulkPairAttempt
    simp [he]
  · intro hok
    constructor
    · unfold bulkPairAttempt
      cases hpost : env.post ("/task/" ++ t ++ "/dependency") (.dependencyBody d 0) with
      | error er => simp [hok, hpost]
      | ok m => simp [hok, hpost]
    · unfold addTaskDependency resolveTaskId
      cases hpost : env.post ("/task/" ++ t ++ "/link/" ++ d) .empty with
      | error er => simp [optTruthy, ht, hd, hok, hpost]
      | ok m => simp [optTruthy, ht, hd, hok, hpost]

/-- Witness for the amended C6 at the pair (B, A) in the demo environment,
where the guard passes. -/
theorem spec_C6_amended_witness :
    (("B" : String) ≠ "" ∧ ("A" : String) ≠ "" ∧
      checkCircularDependency envDemo "B" "A" = .ok ()) ∧
    ((bulkPairAttempt envDemo "B" "A").2 =
        [.post ("/task/" ++ "B" ++ "/dependency") (.dependencyBody "A" 0)] ∧
      (addTaskDependency envDemo { taskId := some "B", dependsOnTaskId := some "A" }).2 =
        [.post ("/task/" ++ "B" ++ "/link/" ++ "A") .empty]) :=
  ⟨⟨by decide, by decide, by decide⟩,
    (spec_C6_amended envDemo "B" "A" (by decide) (by decide)).2 (by decide)⟩

/-- C7: the provenance metadata of the edge descriptor returned by a
successful `addTaskDependency` is generated locally, not taken from the
remote store.  At the concrete input add(B, A) the oracle's write response
carries remote-supplied metadata, yet the returned descriptor has an empty
userid, the local clock as date_created and the locally configured teamId
as workspace_id — none of the remote-supplied values. -/
theorem spec_C7_provenanceFabricated :
    envDemo.post "/task/B/link/A" .empty =
      .ok ⟨"remote-user", "remote-date", "remote-ws"⟩ ∧
    addTaskDependency envDemo { taskId := some "B", dependsOnTaskId := some "A" } =
      (.ok demoDesc, [.post "/task/B/link/A" .empty]) ∧
    demoDesc.userid = "" ∧
    demoDesc.date_created = toString envDemo.now ∧
    demoDesc.workspace_id = envDemo.teamId ∧
    demoDesc.userid ≠ "remote-user" ∧
    demoDesc.date_created ≠ "remote-date" ∧
    demoDesc.workspace_id ≠ "remote-ws" :=
  ⟨by decide, by decide, by decide, by decide, by decide, by decide, by decide, by decide⟩
